import Mathlib

/-!
# Verification of the 401(k) contribution calculator's financial core

This file is a shallow embedding in Lean 4 of the pure calculation layer of
the 401(k) contribution-planning repository:

* `src/v1/src/utils/calculations.js` — contribution resolver, conversions,
  retirement projection helpers;
* `src/v1/src/utils/graphCalculations.js` — monthly/yearly trajectory
  generators, comparison, downsampling;
* `src/v1/src/hooks/useContributionCalculator.js` — the `ytdContributions`
  passthrough value.

JavaScript numbers are modelled by exact rationals (`ℚ`); `Math.round` is
`⌊x + 1/2⌋` (JavaScript rounds half toward +∞ for all finite inputs).
Lean's `ℚ` division is total with `x / 0 = 0`, whereas JavaScript division
by zero produces `Infinity`/`NaN`; wherever a claim hinges on that
difference, a second model (`JSNum`, below) with IEEE-754 special values is
used so that the divide-by-zero behaviour of the source is captured
faithfully.  Finite-precision rounding of IEEE doubles is idealised away
(exact rational arithmetic), which is the reading the specification itself
uses for its algebraic properties.
-/

/-- JavaScript `Math.round` on a finite value: round half toward +∞. -/
def mathRound (x : ℚ) : ℤ := ⌊x + 1 / 2⌋

/-- The `ytd` record of `mockData.js`: months elapsed plus the actual
historical contribution totals (ground truth, supplied externally). -/
structure YTDActuals where
  monthsElapsed : ℕ
  employeeContributed : ℚ
  employerMatched : ℚ
  totalContributed : ℚ
deriving DecidableEq, Repr

/-- The `type` argument of `calculateAnnualContribution` in
`calculations.js`: the string `'percentage'` or `'fixed'`. -/
inductive ContributionType where
  | percentage
  | fixed
deriving DecidableEq, Repr

/-- `calculateAnnualContribution` from `calculations.js`:
percentage-of-salary, or a fixed per-paycheck amount times 26 biweekly
pay periods. -/
def calculateAnnualContribution (type : ContributionType) (amount salary : ℚ) : ℚ :=
  match type with
  | .percentage => salary * amount / 100
  | .fixed => amount * 26

/-- `calculateEmployerMatch` from `calculations.js`: the lesser of
`employeeContribution * employerMatchRate` and the cap
`salary * employerMatchCap / 100`.  Note the source has no flooring at 0. -/
def calculateEmployerMatch (employeeContribution salary employerMatchRate employerMatchCap : ℚ) : ℚ :=
  min (employeeContribution * employerMatchRate) (salary * employerMatchCap / 100)

/-- The `{employee, employer, total}` record returned by
`calculateTotalAnnualContribution` (and by the hook's `ytdContributions`). -/
structure AnnualContributions where
  employee : ℚ
  employer : ℚ
  total : ℚ
deriving DecidableEq, Repr

/-- `calculateTotalAnnualContribution` from `calculations.js`. -/
def calculateTotalAnnualContribution (type : ContributionType)
    (amount salary employerMatchRate employerMatchCap : ℚ) : AnnualContributions :=
  let employeeContribution := calculateAnnualContribution type amount salary
  let employerContribution :=
    calculateEmployerMatch employeeContribution salary employerMatchRate employerMatchCap
  { employee := employeeContribution
    employer := employerContribution
    total := employeeContribution + employerContribution }

/-- `percentageToFixed` from `calculations.js` (returns the annual dollar
amount corresponding to a percentage of salary). -/
def percentageToFixed (percentage salary : ℚ) : ℚ :=
  salary * percentage / 100

/-- `fixedToPercentage` from `calculations.js`, with its explicit
`salary === 0` guard. -/
def fixedToPercentage (fixed salary : ℚ) : ℚ :=
  if salary = 0 then 0 else fixed / salary * 100

/-- The `ytdContributions` memo of `useContributionCalculator.js` (v1):
a pure passthrough of the `ytd` record's three dollar fields.  Its `total`
is the record's stored `totalContributed` field, not a recomputed sum. -/
def ytdContributions (ytd : YTDActuals) : AnnualContributions :=
  { employee := ytd.employeeContributed
    employer := ytd.employerMatched
    total := ytd.totalContributed }

/-! ## Yearly projection (`generateYearlyProjection`) -/

/-- One data point pushed by `generateYearlyProjection`.  All dollar fields
are `Math.round`ed by the source before being stored, hence `ℤ`. -/
structure YearlyPoint where
  year : ℕ
  age : ℤ
  label : String
  employee : ℤ
  employer : ℤ
  total : ℤ
  balance : ℤ
  growth : ℤ
  startingBalance : ℤ
  isProjected : Bool
deriving DecidableEq, Repr

/-- The running balance of `generateYearlyProjection`'s loop after `y`
iterations: each year the balance grows by the annual return and then the
year's total contribution is added. -/
def yearlyBalanceRaw (currentBalance annualContribution annualReturnRate : ℚ) : ℕ → ℚ
  | 0 => currentBalance
  | y + 1 =>
    yearlyBalanceRaw currentBalance annualContribution annualReturnRate y
      * (1 + annualReturnRate) + annualContribution

/-- The point pushed by `generateYearlyProjection` for a given year index.
Year 0 is the starting point (literal zeros, `growth` literally 0,
`isProjected` false); later years accumulate contributions (`cumulative…`
grows by the same annual amount each iteration, i.e. is the annual amount
times the year index over exact arithmetic) and apply compound growth. -/
def yearlyPoint (currentBalance : ℚ) (currentAge : ℤ)
    (annualEmployeeContribution annualEmployerContribution annualReturnRate : ℚ)
    (year : ℕ) : YearlyPoint :=
  if year = 0 then
    { year := 0
      age := currentAge
      label := "Age " ++ toString currentAge
      employee := 0
      employer := 0
      total := 0
      balance := mathRound currentBalance
      growth := 0
      startingBalance := mathRound currentBalance
      isProjected := false }
  else
    let cumulativeEmployee := annualEmployeeContribution * year
    let cumulativeEmployer := annualEmployerContribution * year
    let totalContributions := cumulativeEmployee + cumulativeEmployer
    let balance :=
      yearlyBalanceRaw currentBalance
        (annualEmployeeContribution + annualEmployerContribution) annualReturnRate year
    let growth := balance - currentBalance - totalContributions
    { year := year
      age := currentAge + year
      label := "Age " ++ toString (currentAge + year)
      employee := mathRound cumulativeEmployee
      employer := mathRound cumulativeEmployer
      total := mathRound totalContributions
      balance := mathRound balance
      growth := mathRound growth
      startingBalance := mathRound currentBalance
      isProjected := true }

/-- `generateYearlyProjection` from `graphCalculations.js`: the starting
point plus one point per year from 1 to `retirementAge - currentAge`
(no loop iterations when that difference is not positive). -/
def generateYearlyProjection (currentBalance : ℚ) (currentAge retirementAge : ℤ)
    (annualEmployeeContribution annualEmployerContribution annualReturnRate : ℚ) :
    List YearlyPoint :=
  (List.range ((retirementAge - currentAge).toNat + 1)).map
    (yearlyPoint currentBalance currentAge annualEmployeeContribution
      annualEmployerContribution annualReturnRate)

/-! ## Monthly projection (`generateMonthlyProjection`)

The exact-arithmetic model.  `monthsElapsed` enters arithmetic as a
rational; Lean's total `/` gives `x / 0 = 0` where the JavaScript source
produces `Infinity`/`NaN` — the claims touching that regime are settled
against the `JSNum` model further below. -/

/-- One data point pushed by `generateMonthlyProjection`.  The source
rounds `balance`, `growth` and `startingBalance` but stores the
contribution fields unrounded. -/
structure MonthlyPoint where
  month : ℕ
  label : String
  employee : ℚ
  employer : ℚ
  total : ℚ
  balance : ℤ
  growth : ℤ
  startingBalance : ℤ
  isProjected : Bool
deriving DecidableEq, Repr

/-- `actualMonthlyEmployee` in `generateMonthlyProjection`: the actual
historical contribution divided by the months elapsed. -/
def actualMonthlyEmployee (act : YTDActuals) (monthsElapsed : ℕ) : ℚ :=
  act.employeeContributed / monthsElapsed

/-- `actualMonthlyEmployer` in `generateMonthlyProjection`. -/
def actualMonthlyEmployer (act : YTDActuals) (monthsElapsed : ℕ) : ℚ :=
  act.employerMatched / monthsElapsed

/-- `startOfYearBalance` in `generateMonthlyProjection`: the current
balance with `monthsElapsed` months of compounding and the future value of
the actual monthly contributions backed out. -/
def startOfYearBalance (currentBalance : ℚ) (monthsElapsed : ℕ)
    (annualReturnRate : ℚ) (act : YTDActuals) : ℚ :=
  let monthlyRate := annualReturnRate / 12
  let actualMonthlyTotal :=
    actualMonthlyEmployee act monthsElapsed + actualMonthlyEmployer act monthsElapsed
  let growthFactor := (1 + monthlyRate) ^ monthsElapsed
  let contributionGrowth := actualMonthlyTotal * ((growthFactor - 1) / monthlyRate)
  (currentBalance - contributionGrowth) / growthFactor

/-- The `balance` variable of `generateMonthlyProjection`'s loop body
before rounding: historical months rebuild the balance from the
start-of-year balance with the actual contribution rate (with the
source's `month > 0` ternary), future months project forward from the
current balance with the new settings. -/
def monthlyBalanceRaw (currentBalance annualEmployeeContribution annualEmployerContribution : ℚ)
    (monthsElapsed : ℕ) (annualReturnRate : ℚ) (act : YTDActuals) (month : ℕ) : ℚ :=
  let monthlyRate := annualReturnRate / 12
  if month ≤ monthsElapsed then
    let growth := (1 + monthlyRate) ^ month
    let contributions :=
      if 0 < month then
        (actualMonthlyEmployee act monthsElapsed + actualMonthlyEmployer act monthsElapsed)
          * ((growth - 1) / monthlyRate)
      else 0
    startOfYearBalance currentBalance monthsElapsed annualReturnRate act * growth
      + contributions
  else
    let monthsInFuture := month - monthsElapsed
    let growth := (1 + monthlyRate) ^ monthsInFuture
    let futureContributions :=
      (annualEmployeeContribution / 12 + annualEmployerContribution / 12)
        * ((growth - 1) / monthlyRate)
    currentBalance * growth + futureContributions

/-- The point pushed by `generateMonthlyProjection`'s loop body for a
given month index. -/
def monthlyPoint (currentBalance annualEmployeeContribution annualEmployerContribution : ℚ)
    (monthsElapsed : ℕ) (annualReturnRate : ℚ) (act : YTDActuals) (month : ℕ) : MonthlyPoint :=
  let employeeContributed :=
    if month ≤ monthsElapsed then actualMonthlyEmployee act monthsElapsed * month
    else actualMonthlyEmployee act monthsElapsed * monthsElapsed
      + annualEmployeeContribution / 12 * ((month : ℚ) - monthsElapsed)
  let employerContributed :=
    if month ≤ monthsElapsed then actualMonthlyEmployer act monthsElapsed * month
    else actualMonthlyEmployer act monthsElapsed * monthsElapsed
      + annualEmployerContribution / 12 * ((month : ℚ) - monthsElapsed)
  let balance :=
    monthlyBalanceRaw currentBalance annualEmployeeContribution annualEmployerContribution
      monthsElapsed annualReturnRate act month
  let totalContributed := employeeContributed + employerContributed
  let growth :=
    balance - startOfYearBalance currentBalance monthsElapsed annualReturnRate act
      - totalContributed
  { month := month
    label := "Month " ++ toString month
    employee := employeeContributed
    employer := employerContributed
    total := totalContributed
    balance := mathRound balance
    growth := mathRound growth
    startingBalance :=
      mathRound (startOfYearBalance currentBalance monthsElapsed annualReturnRate act)
    isProjected := decide (monthsElapsed < month) }

/-- `generateMonthlyProjection` from `graphCalculations.js`: one point per
month index from 0 to `monthsToProject` inclusive. -/
def generateMonthlyProjection (currentBalance annualEmployeeContribution
    annualEmployerContribution : ℚ) (monthsElapsed : ℕ) (annualReturnRate : ℚ)
    (monthsToProject : ℕ) (actualYTDContributions : YTDActuals) : List MonthlyPoint :=
  (List.range (monthsToProject + 1)).map
    (monthlyPoint currentBalance annualEmployeeContribution annualEmployerContribution
      monthsElapsed annualReturnRate actualYTDContributions)

/-! ## Comparison (`calculateProjectionComparison`) -/

/-- One element of the comparison `data` array: the new point spread
together with the original balance and the per-point delta.  With equal
lengths (the only case in which the array is built) the indexed lookup
`originalData[index]` is always defined, so `originalBalance` is stored
directly. -/
structure ComparisonPoint where
  point : YearlyPoint
  originalBalance : ℤ
  delta : ℤ
deriving DecidableEq, Repr

/-- The non-null result object of `calculateProjectionComparison`. -/
structure ProjectionComparison where
  data : List ComparisonPoint
  difference : ℤ
  isIncrease : Bool
  percentChange : ℚ
deriving DecidableEq, Repr

/-- `calculateProjectionComparison` from `graphCalculations.js`: `null`
(here `none`) when the two arrays' lengths differ, otherwise the final
delta, `isIncrease` (strict), per-point deltas, and the percent change
(0 unless the original final balance is positive, mirroring the source's
`finalOriginal > 0 ? … : 0` guard).  The source's `?.balance || 0`
fallbacks only matter for empty arrays, where they yield 0 — modelled by
`Option.getD 0`. -/
def calculateProjectionComparison (originalData newData : List YearlyPoint) :
    Option ProjectionComparison :=
  if originalData.length = newData.length then
    let finalOriginal : ℤ := (originalData.getLast?.map YearlyPoint.balance).getD 0
    let finalNew : ℤ := (newData.getLast?.map YearlyPoint.balance).getD 0
    let difference := finalNew - finalOriginal
    let comparisonData :=
      List.zipWith
        (fun (point originalPoint : YearlyPoint) =>
          ComparisonPoint.mk point originalPoint.balance
            (point.balance - originalPoint.balance))
        newData originalData
    some
      { data := comparisonData
        difference := difference
        isIncrease := decide (0 < difference)
        percentChange :=
          if 0 < finalOriginal then (difference : ℚ) / (finalOriginal : ℚ) * 100 else 0 }
  else
    none

/-! ## Claim C3 — contribution resolver -/

/-- C3 (counterexample): the source's `calculateEmployerMatch` has no
flooring at 0, so the claimed "employer floored at 0, hence always ≥ 0"
fails: with a −100% match rate the employer contribution is −10 < 0. -/
theorem employer_match_not_floored_at_zero :
    (calculateTotalAnnualContribution .percentage 10 100 (-1) 5).employer = -10 ∧
      ¬ 0 ≤ (calculateTotalAnnualContribution .percentage 10 100 (-1) 5).employer := by
  norm_num [calculateTotalAnnualContribution, calculateAnnualContribution,
    calculateEmployerMatch, min_def]

/-- C3 (amended): `calculateTotalAnnualContribution` returns
`employee = salary * amount / 100` (percentage) or `amount * 26` (fixed),
`employer = min (employee * matchRate) (salary * cap / 100)` with no
flooring (so `employer ≤ salary * cap / 100` always, and `employer ≥ 0`
whenever amount, salary, matchRate and cap are all non-negative), and
`total = employee + employer`; the concrete scenario salary 65000,
10 %, matchRate 1.0, cap 5 yields employee 6500, employer 3250,
total 9750. -/
theorem calculateTotalAnnualContribution_spec (type : ContributionType)
    (amount salary employerMatchRate employerMatchCap : ℚ) :
    (calculateTotalAnnualContribution type amount salary employerMatchRate
        employerMatchCap).employee =
      (match type with
        | .percentage => salary * amount / 100
        | .fixed => amount * 26) ∧
    (calculateTotalAnnualContribution type amount salary employerMatchRate
        employerMatchCap).employer =
      min ((calculateTotalAnnualContribution type amount salary employerMatchRate
          employerMatchCap).employee * employerMatchRate)
        (salary * employerMatchCap / 100) ∧
    (calculateTotalAnnualContribution type amount salary employerMatchRate
        employerMatchCap).total =
      (calculateTotalAnnualContribution type amount salary employerMatchRate
          employerMatchCap).employee +
        (calculateTotalAnnualContribution type amount salary employerMatchRate
            employerMatchCap).employer ∧
    (calculateTotalAnnualContribution type amount salary employerMatchRate
        employerMatchCap).employer ≤ salary * employerMatchCap / 100 ∧
    (0 ≤ amount → 0 ≤ salary → 0 ≤ employerMatchRate → 0 ≤ employerMatchCap →
      0 ≤ (calculateTotalAnnualContribution type amount salary employerMatchRate
          employerMatchCap).employer) ∧
    calculateTotalAnnualContribution .percentage 10 65000 1 5 =
      { employee := 6500, employer := 3250, total := 9750 } := by
  refine ⟨?_, ?_, ?_, ?_, ?_, by
    norm_num [calculateTotalAnnualContribution, calculateAnnualContribution,
      calculateEmployerMatch, min_def, AnnualContributions.mk.injEq]⟩
  · cases type <;> rfl
  · cases type <;> rfl
  · rfl
  · exact min_le_right _ _
  · intro ha hs hr hc
    refine le_min (mul_nonneg ?_ hr) (div_nonneg (mul_nonneg hs hc) (by norm_num))
    cases type with
    | percentage =>
      simpa [calculateTotalAnnualContribution, calculateAnnualContribution] using
        div_nonneg (mul_nonneg hs ha) (by norm_num : (0:ℚ) ≤ 100)
    | fixed =>
      simpa [calculateTotalAnnualContribution, calculateAnnualContribution] using
        mul_nonneg ha (by norm_num : (0:ℚ) ≤ 26)

/-- C3 witness: the amended theorem instantiated at the concrete scenario,
with its non-negativity hypotheses discharged. -/
theorem calculateTotalAnnualContribution_spec_witness :
    0 ≤ (calculateTotalAnnualContribution .percentage 10 65000 1 5).employer ∧
      calculateTotalAnnualContribution .percentage 10 65000 1 5 =
        { employee := 6500, employer := 3250, total := 9750 } := by
  refine ⟨?_, ?_⟩
  · exact (calculateTotalAnnualContribution_spec .percentage 10 65000 1 5).2.2.2.2.1
      (by norm_num) (by norm_num) (by norm_num) (by norm_num)
  · exact (calculateTotalAnnualContribution_spec .percentage 10 65000 1 5).2.2.2.2.2

/-! ## Claim C4 — YTD passthrough -/

/-- C4 (counterexample): the hook's `ytdContributions` passes through the
record's stored `totalContributed` field, so for a record whose stored
total is inconsistent with its parts, `total ≠ employee + employer`. -/
theorem ytdContributions_total_not_sum :
    ¬ (ytdContributions ⟨3, 1, 1, 5⟩).total =
        (ytdContributions ⟨3, 1, 1, 5⟩).employee +
          (ytdContributions ⟨3, 1, 1, 5⟩).employer := by
  norm_num [ytdContributions]

/-- C4 (amended): `ytdContributions` returns
`employee = actuals.employeeContributed`,
`employer = actuals.employerMatched`, and
`total = actuals.totalContributed` — a pure passthrough of the actuals
record (by its type it takes no UI contribution settings at all); its
`total` equals `employee + employer` exactly when the record's stored
total is consistent with its parts, as the mock payroll record is. -/
theorem ytdContributions_spec (ytd : YTDActuals) :
    (ytdContributions ytd).employee = ytd.employeeContributed ∧
    (ytdContributions ytd).employer = ytd.employerMatched ∧
    (ytdContributions ytd).total = ytd.totalContributed ∧
    (ytd.totalContributed = ytd.employeeContributed + ytd.employerMatched →
      (ytdContributions ytd).total =
        (ytdContributions ytd).employee + (ytdContributions ytd).employer) := by
  exact ⟨rfl, rfl, rfl, fun h => h⟩

/-- C4 witness: the amended theorem instantiated at the mock `ytd` record
(9 months, 4875 employee, 2437.50 employer, 7312.50 total), whose stored
total is consistent. -/
theorem ytdContributions_spec_witness :
    (ytdContributions ⟨9, 4875, 4875/2, 14625/2⟩).total =
      (ytdContributions ⟨9, 4875, 4875/2, 14625/2⟩).employee +
        (ytdContributions ⟨9, 4875, 4875/2, 14625/2⟩).employer :=
  (ytdContributions_spec ⟨9, 4875, 4875/2, 14625/2⟩).2.2.2 (by norm_num)

/-! ## Claim C7 — round-trip conversion -/

/-- C7: for any positive salary and percentage `p ∈ [0, 100]`, converting
`p` to a per-paycheck amount (`percentageToFixed` then `/ 26`) and back
(`* 26` then `fixedToPercentage`) reproduces `p` exactly over exact
arithmetic. -/
theorem conversion_round_trip (p salary : ℚ) (hs : 0 < salary)
    (hp0 : 0 ≤ p) (hp1 : p ≤ 100) :
    fixedToPercentage (percentageToFixed p salary / 26 * 26) salary = p := by
  rw [fixedToPercentage, if_neg (ne_of_gt hs), percentageToFixed]
  field_simp
  ring

/-- C7 witness: the round trip at salary 65000 and p = 10 %. -/
theorem conversion_round_trip_witness :
    fixedToPercentage (percentageToFixed 10 65000 / 26 * 26) 65000 = 10 :=
  conversion_round_trip 10 65000 (by norm_num) (by norm_num) (by norm_num)

/-! ## Claim C9 — comparator mismatched-horizon error -/

/-- C9: `calculateProjectionComparison` returns `none` (the source's
`null`, producing no comparison data) exactly when the two trajectories'
lengths differ; a comparison object is produced only for equal lengths. -/
theorem calculateProjectionComparison_none_iff (originalData newData : List YearlyPoint) :
    calculateProjectionComparison originalData newData = none ↔
      originalData.length ≠ newData.length := by
  unfold calculateProjectionComparison
  split
  · simp_all
  · simp_all

/-! ## Claim C1 — historical freeze -/

/-- C1: the monthly projector's points at indices `≤ monthsElapsed` are
identical for any two contribution settings, given the same balance,
actuals, months elapsed and return rate: the historical branch reads only
the actual rates and the backed-out start-of-year balance, never the new
annual contribution arguments. -/
theorem historical_freeze (currentBalance ae₁ aer₁ ae₂ aer₂ : ℚ) (monthsElapsed : ℕ)
    (annualReturnRate : ℚ) (monthsToProject : ℕ) (act : YTDActuals) (m : ℕ)
    (hm : m ≤ monthsElapsed) :
    (generateMonthlyProjection currentBalance ae₁ aer₁ monthsElapsed annualReturnRate
        monthsToProject act).get? m =
      (generateMonthlyProjection currentBalance ae₂ aer₂ monthsElapsed annualReturnRate
          monthsToProject act).get? m := by
  unfold generateMonthlyProjection
  rw [List.get?_map, List.get?_map]
  rcases Nat.lt_or_ge m (monthsToProject + 1) with h | h
  · rw [List.get?_range h]
    simp only [Option.map_some']
    congr 1
    simp [monthlyPoint, monthlyBalanceRaw, hm]
  · rw [List.get?_len_le (by simpa using h)]
    rfl

/-- C1 witness: two different contribution settings, same actuals, agree
at index 1 ≤ monthsElapsed = 1. -/
theorem historical_freeze_witness :
    (generateMonthlyProjection 1 2 3 1 12 2 ⟨1, 6, 0, 6⟩).get? 1 =
      (generateMonthlyProjection 1 4 5 1 12 2 ⟨1, 6, 0, 6⟩).get? 1 :=
  historical_freeze 1 2 3 4 5 1 12 2 ⟨1, 6, 0, 6⟩ 1 (by norm_num)

/-! ## Claim C6 — zero-horizon degenerate case -/

/-- C6 (counterexample): the yearly projector stores `Math.round`ed
balances, so for the non-integer balance 1/2 the single returned point
carries balance 1, not the claimed exact input balance 1/2. -/
theorem zero_horizon_balance_rounded :
    ((generateYearlyProjection (1/2) 30 30 0 0 0).head?.map
        (fun p => (p.balance : ℚ))) = some 1 ∧ (1 : ℚ) ≠ 1/2 := by
  constructor
  · norm_num [generateYearlyProjection, yearlyPoint, mathRound, List.range_succ]
  · norm_num

/-- C6 (amended): for `retirementAge ≤ currentAge` the yearly projector
returns exactly one point: index 0, balance `Math.round(currentBalance)`
(equal to the input balance whenever it is a whole-dollar amount), zero
cumulative contributions, zero growth, and `isProjected = false`. -/
theorem generateYearlyProjection_zero_horizon (currentBalance : ℚ)
    (currentAge retirementAge : ℤ) (ae aer annualReturnRate : ℚ)
    (h : retirementAge ≤ currentAge) :
    generateYearlyProjection currentBalance currentAge retirementAge ae aer
        annualReturnRate =
      [{ year := 0
         age := currentAge
         label := "Age " ++ toString currentAge
         employee := 0
         employer := 0
         total := 0
         balance := mathRound currentBalance
         growth := 0
         startingBalance := mathRound currentBalance
         isProjected := false }] := by
  have h0 : (retirementAge - currentAge).toNat = 0 := by omega
  simp [generateYearlyProjection, h0, List.range_succ, yearlyPoint]

/-- C6 witness: a 40-year-old with retirement age 40 gets the single
starting point. -/
theorem generateYearlyProjection_zero_horizon_witness :
    generateYearlyProjection 100 40 40 1 2 3 =
      [{ year := 0
         age := 40
         label := "Age " ++ toString (40 : ℤ)
         employee := 0
         employer := 0
         total := 0
         balance := mathRound 100
         growth := 0
         startingBalance := mathRound 100
         isProjected := false }] :=
  generateYearlyProjection_zero_horizon 100 40 40 1 2 3 (by norm_num)

/-! ## Claim C10 — back-solve continuity -/

/-- The back-solve identity: rebuilding the balance at index
`monthsElapsed` from the backed-out start-of-year balance reproduces the
current balance exactly (exact arithmetic, positive return rate). -/
lemma monthlyBalanceRaw_at_elapsed (currentBalance ae aer : ℚ) (monthsElapsed : ℕ)
    (annualReturnRate : ℚ) (act : YTDActuals) (hrate : 0 < annualReturnRate) :
    monthlyBalanceRaw currentBalance ae aer monthsElapsed annualReturnRate act
      monthsElapsed = currentBalance := by
  have hg : (0:ℚ) < 1 + annualReturnRate / 12 := by linarith [hrate]
  have hgE : ((1 + annualReturnRate / 12) ^ monthsElapsed : ℚ) ≠ 0 :=
    pow_ne_zero _ (ne_of_gt hg)
  unfold monthlyBalanceRaw startOfYearBalance
  rcases Nat.eq_zero_or_pos monthsElapsed with hE | hE
  · subst hE
    simp
  · simp only [le_refl, if_true, hE, if_pos]
    rw [div_mul_cancel₀ _ hgE]
    ring

/-- C10: with at least one elapsed month and a positive return rate, the
back-solved start-of-year balance grown forward over the elapsed months
(plus the future value of the actual contributions) reproduces
`currentBalance` exactly, so the trajectory's point at index
`monthsElapsed` — the junction of the historical and projected segments —
carries balance `Math.round(currentBalance)`. -/
theorem back_solve_continuity (currentBalance ae aer : ℚ) (monthsElapsed : ℕ)
    (annualReturnRate : ℚ) (monthsToProject : ℕ) (act : YTDActuals)
    (hE : 1 ≤ monthsElapsed) (hrate : 0 < annualReturnRate)
    (hT : monthsElapsed ≤ monthsToProject) :
    monthlyBalanceRaw currentBalance ae aer monthsElapsed annualReturnRate act
        monthsElapsed = currentBalance ∧
    (generateMonthlyProjection currentBalance ae aer monthsElapsed annualReturnRate
        monthsToProject act).get? monthsElapsed =
      some (monthlyPoint currentBalance ae aer monthsElapsed annualReturnRate act
        monthsElapsed) ∧
    (monthlyPoint currentBalance ae aer monthsElapsed annualReturnRate act
        monthsElapsed).balance = mathRound currentBalance := by
  have h1 := monthlyBalanceRaw_at_elapsed currentBalance ae aer monthsElapsed
    annualReturnRate act hrate
  refine ⟨h1, ?_, ?_⟩
  · unfold generateMonthlyProjection
    rw [List.get?_map, List.get?_range (by omega)]
    rfl
  · show mathRound (monthlyBalanceRaw currentBalance ae aer monthsElapsed
      annualReturnRate act monthsElapsed) = mathRound currentBalance
    rw [h1]

/-- C10 witness: one elapsed month at a 1200 % annual rate (monthly factor
2): the junction point reproduces the current balance 100. -/
theorem back_solve_continuity_witness :
    monthlyBalanceRaw 100 7 8 1 12 ⟨1, 12, 0, 12⟩ 1 = 100 ∧
    (generateMonthlyProjection 100 7 8 1 12 1 ⟨1, 12, 0, 12⟩).get? 1 =
      some (monthlyPoint 100 7 8 1 12 ⟨1, 12, 0, 12⟩ 1) ∧
    (monthlyPoint 100 7 8 1 12 ⟨1, 12, 0, 12⟩ 1).balance = mathRound 100 :=
  back_solve_continuity 100 7 8 1 12 1 ⟨1, 12, 0, 12⟩ (by norm_num) (by norm_num)
    (by norm_num)

/-! ## IEEE-754 special-value model (`JSNum`)

Lean's total `ℚ` division hides what the JavaScript source actually does
when a denominator is zero.  `JSNum` models a JavaScript number as either
`NaN`, `±Infinity`, or an exact finite rational, with the IEEE-754 rules
for how the special values propagate through `+`, `-`, `*`, `/`, `Math.pow`
and `Math.round` (finite arithmetic stays exact; the model has no negative
zero, which none of the claims distinguish). -/

inductive JSNum where
  | nan
  | posInf
  | negInf
  | fin (q : ℚ)
deriving DecidableEq, Repr

/-- IEEE addition: `NaN` propagates, opposite infinities give `NaN`. -/
def JSNum.add : JSNum → JSNum → JSNum
  | nan, _ => nan
  | _, nan => nan
  | posInf, negInf => nan
  | negInf, posInf => nan
  | posInf, _ => posInf
  | _, posInf => posInf
  | negInf, _ => negInf
  | _, negInf => negInf
  | fin a, fin b => fin (a + b)

/-- IEEE negation. -/
def JSNum.neg : JSNum → JSNum
  | nan => nan
  | posInf => negInf
  | negInf => posInf
  | fin a => fin (-a)

/-- IEEE subtraction (`x - y = x + (-y)` exactly for these values). -/
def JSNum.sub (a b : JSNum) : JSNum := a.add b.neg

/-- IEEE multiplication: `NaN` propagates, `Infinity * 0 = NaN`, signs
otherwise as usual. -/
def JSNum.mul : JSNum → JSNum → JSNum
  | nan, _ => nan
  | _, nan => nan
  | posInf, posInf => posInf
  | posInf, negInf => negInf
  | negInf, posInf => negInf
  | negInf, negInf => posInf
  | posInf, fin q => if q = 0 then nan else if 0 < q then posInf else negInf
  | fin q, posInf => if q = 0 then nan else if 0 < q then posInf else negInf
  | negInf, fin q => if q = 0 then nan else if 0 < q then negInf else posInf
  | fin q, negInf => if q = 0 then nan else if 0 < q then negInf else posInf
  | fin a, fin b => fin (a * b)

/-- IEEE division: `0 / 0 = NaN`, `x / 0 = ±Infinity` for `x ≠ 0`,
`Infinity / Infinity = NaN`, finite by `±Infinity` is 0. -/
def JSNum.div : JSNum → JSNum → JSNum
  | nan, _ => nan
  | _, nan => nan
  | posInf, posInf => nan
  | posInf, negInf => nan
  | negInf, posInf => nan
  | negInf, negInf => nan
  | posInf, fin q => if 0 ≤ q then posInf else negInf
  | negInf, fin q => if 0 ≤ q then negInf else posInf
  | fin _, posInf => fin 0
  | fin _, negInf => fin 0
  | fin a, fin b =>
    if b = 0 then (if a = 0 then nan else if 0 < a then posInf else negInf)
    else fin (a / b)

/-- `Math.pow` with a natural exponent (the only shape the source uses):
any base to the 0 is 1 (including `NaN`, per JavaScript), otherwise `NaN`
and infinities propagate with the usual sign rule. -/
def JSNum.pow (a : JSNum) : ℕ → JSNum
  | 0 => fin 1
  | n + 1 =>
    match a with
    | nan => nan
    | posInf => posInf
    | negInf => if (n + 1) % 2 = 0 then posInf else negInf
    | fin q => fin (q ^ (n + 1))

/-- `Math.round`: special values pass through, finite values round half
toward +∞. -/
def JSNum.round : JSNum → JSNum
  | nan => nan
  | posInf => posInf
  | negInf => negInf
  | fin q => fin ((⌊q + 1 / 2⌋ : ℤ) : ℚ)

/-- JavaScript `<=` as a boolean: false whenever `NaN` is involved. -/
def JSNum.le : JSNum → JSNum → Bool
  | nan, _ => false
  | _, nan => false
  | negInf, _ => true
  | _, posInf => true
  | posInf, _ => false
  | _, negInf => false
  | fin a, fin b => decide (a ≤ b)

/-- The two actual-contribution fields of the `ytd` record that
`generateMonthlyProjection` reads, as JavaScript numbers. -/
structure JSYTDActuals where
  employeeContributed : JSNum
  employerMatched : JSNum
deriving DecidableEq, Repr

/-- `generateMonthlyProjection`'s data points with JavaScript-number
fields, so that `NaN`/`Infinity` contamination is visible. -/
structure JSMonthlyPoint where
  month : ℕ
  label : String
  employee : JSNum
  employer : JSNum
  total : JSNum
  balance : JSNum
  growth : JSNum
  startingBalance : JSNum
  isProjected : Bool
deriving DecidableEq, Repr

/-- The loop body of `generateMonthlyProjection` over `JSNum`, a literal
transcription of the source including the unguarded divisions
`employeeContributed / monthsElapsed` and `(growthFactor - 1) /
monthlyRate` (the outer `const`s are recomputed here per point, which is
semantically identical to the source's single computation). -/
def jsMonthlyPoint (currentBalance annualEmployeeContribution
    annualEmployerContribution : JSNum) (monthsElapsed : ℕ) (annualReturnRate : JSNum)
    (act : JSYTDActuals) (month : ℕ) : JSMonthlyPoint :=
  let monthlyRate := annualReturnRate.div (.fin 12)
  let futureMonthlyEmployee := annualEmployeeContribution.div (.fin 12)
  let futureMonthlyEmployer := annualEmployerContribution.div (.fin 12)
  let actualMonthlyEmployee := act.employeeContributed.div (.fin monthsElapsed)
  let actualMonthlyEmployer := act.employerMatched.div (.fin monthsElapsed)
  let actualMonthlyTotal := actualMonthlyEmployee.add actualMonthlyEmployer
  let growthFactor := ((JSNum.fin 1).add monthlyRate).pow monthsElapsed
  let contributionGrowth :=
    actualMonthlyTotal.mul ((growthFactor.sub (.fin 1)).div monthlyRate)
  let startOfYearBalance := (currentBalance.sub contributionGrowth).div growthFactor
  if month ≤ monthsElapsed then
    let employeeContributed := actualMonthlyEmployee.mul (.fin month)
    let employerContributed := actualMonthlyEmployer.mul (.fin month)
    let growthPow := ((JSNum.fin 1).add monthlyRate).pow month
    let contributions :=
      if 0 < month then
        (actualMonthlyEmployee.add actualMonthlyEmployer).mul
          ((growthPow.sub (.fin 1)).div monthlyRate)
      else JSNum.fin 0
    let balance := (startOfYearBalance.mul growthPow).add contributions
    let totalContributed := employeeContributed.add employerContributed
    let growth := (balance.sub startOfYearBalance).sub totalContributed
    { month := month
      label := "Month " ++ toString month
      employee := employeeContributed
      employer := employerContributed
      total := totalContributed
      balance := balance.round
      growth := growth.round
      startingBalance := startOfYearBalance.round
      isProjected := decide (monthsElapsed < month) }
  else
    let monthsInFuture := month - monthsElapsed
    let employeeContributed :=
      (actualMonthlyEmployee.mul (.fin monthsElapsed)).add
        (futureMonthlyEmployee.mul (.fin monthsInFuture))
    let employerContributed :=
      (actualMonthlyEmployer.mul (.fin monthsElapsed)).add
        (futureMonthlyEmployer.mul (.fin monthsInFuture))
    let growthPow := ((JSNum.fin 1).add monthlyRate).pow monthsInFuture
    let futureContributions :=
      (futureMonthlyEmployee.add futureMonthlyEmployer).mul
        ((growthPow.sub (.fin 1)).div monthlyRate)
    let balance := (currentBalance.mul growthPow).add futureContributions
    let totalContributed := employeeContributed.add employerContributed
    let growth := (balance.sub startOfYearBalance).sub totalContributed
    { month := month
      label := "Month " ++ toString month
      employee := employeeContributed
      employer := employerContributed
      total := totalContributed
      balance := balance.round
      growth := growth.round
      startingBalance := startOfYearBalance.round
      isProjected := decide (monthsElapsed < month) }

/-- `generateMonthlyProjection` over JavaScript-number semantics. -/
def jsGenerateMonthlyProjection (currentBalance annualEmployeeContribution
    annualEmployerContribution : JSNum) (monthsElapsed : ℕ) (annualReturnRate : JSNum)
    (monthsToProject : ℕ) (actualYTDContributions : JSYTDActuals) : List JSMonthlyPoint :=
  (List.range (monthsToProject + 1)).map
    (jsMonthlyPoint currentBalance annualEmployeeContribution
      annualEmployerContribution monthsElapsed annualReturnRate actualYTDContributions)

/-! ## Claim C2 — division-by-zero guard -/

/-- C2: `generateMonthlyProjection` has no `monthsElapsed = 0` guard.
Called with the mock actuals and `monthsElapsed = 0`, the source computes
`actualMonthlyEmployee = 4875 / 0 = Infinity`, then
`Infinity * 0 = NaN` poisons the start-of-year balance, and the very
first output point's balance is `NaN` — not the defined zero result the
claim (and §4.3/§7 of the specification, and the function's own
documented 0–11 input range) require. -/
theorem monthly_projection_divides_by_zero :
    ((jsGenerateMonthlyProjection (.fin 45000) (.fin 6500) (.fin 3250) 0
        (.fin (7/100)) 12 ⟨.fin 4875, .fin (4875/2)⟩).get? 0).map
      JSMonthlyPoint.balance = some JSNum.nan := by
  rw [jsGenerateMonthlyProjection, List.get?_map, List.get?_range (by norm_num)]
  norm_num [jsMonthlyPoint, JSNum.add, JSNum.sub, JSNum.neg, JSNum.mul, JSNum.div,
    JSNum.pow, JSNum.round]

/-- C5 (counterexample): at `annualReturnRate = 0` — allowed by the
claim's `annualReturnRate ≥ 0` — the source computes
`(growthFactor - 1) / monthlyRate = 0 / 0 = NaN`, so consecutive monthly
balances are `NaN` and the claimed `balance[i+1] >= balance[i]` is false
under JavaScript comparison (`NaN <= NaN` is false), with every other
input non-negative. -/
theorem monotonic_growth_counterexample :
    ((jsGenerateMonthlyProjection (.fin 0) (.fin 0) (.fin 0) 1 (.fin 0) 1
        ⟨.fin 12, .fin 0⟩).map JSMonthlyPoint.balance) = [JSNum.nan, JSNum.nan] ∧
      JSNum.le JSNum.nan JSNum.nan = false := by
  constructor
  · rw [jsGenerateMonthlyProjection]
    norm_num [List.range_succ, jsMonthlyPoint, JSNum.add, JSNum.sub, JSNum.neg,
      JSNum.mul, JSNum.div, JSNum.pow, JSNum.round]
  · rfl

/-! ## Claim C5 — monotonic growth (amended) -/

/-- `Math.round` is monotone. -/
lemma mathRound_mono {x y : ℚ} (h : x ≤ y) : mathRound x ≤ mathRound y :=
  Int.floor_le_floor (by linarith)

/-- One compounding step of the lump-sum-plus-annuity future value. -/
lemma annuity_step (x c mr : ℚ) (hmr : mr ≠ 0) (j : ℕ) :
    x * (1 + mr) ^ (j + 1) + c * (((1 + mr) ^ (j + 1) - 1) / mr)
        - (x * (1 + mr) ^ j + c * (((1 + mr) ^ j - 1) / mr))
      = (1 + mr) ^ j * (x * mr + c) := by
  field_simp
  ring

/-- Closed form of the historical branch of `monthlyBalanceRaw` (the
source's `month > 0` ternary agrees with the annuity formula at
`month = 0`). -/
lemma monthlyBalanceRaw_hist (currentBalance ae aer : ℚ) (monthsElapsed : ℕ)
    (rate : ℚ) (act : YTDActuals) (m : ℕ) (hm : m ≤ monthsElapsed) :
    monthlyBalanceRaw currentBalance ae aer monthsElapsed rate act m =
      startOfYearBalance currentBalance monthsElapsed rate act * (1 + rate / 12) ^ m
        + (actualMonthlyEmployee act monthsElapsed + actualMonthlyEmployer act monthsElapsed)
          * (((1 + rate / 12) ^ m - 1) / (rate / 12)) := by
  unfold monthlyBalanceRaw
  rw [if_pos hm]
  rcases Nat.eq_zero_or_pos m with h0 | h0
  · subst h0
    simp
  · simp only [if_pos h0]

/-- Closed form of the future branch of `monthlyBalanceRaw`. -/
lemma monthlyBalanceRaw_future (currentBalance ae aer : ℚ) (monthsElapsed : ℕ)
    (rate : ℚ) (act : YTDActuals) (m : ℕ) (hm : monthsElapsed < m) :
    monthlyBalanceRaw currentBalance ae aer monthsElapsed rate act m =
      currentBalance * (1 + rate / 12) ^ (m - monthsElapsed)
        + (ae / 12 + aer / 12)
          * (((1 + rate / 12) ^ (m - monthsElapsed) - 1) / (rate / 12)) := by
  unfold monthlyBalanceRaw
  rw [if_neg (by omega)]

/-- The quantity `startOfYearBalance * monthlyRate + actualMonthlyTotal`
equals `(currentBalance * monthlyRate + actualMonthlyTotal)` deflated by
the elapsed growth factor — hence it is non-negative for non-negative
inputs.  This is the seed of the historical branch's monotonicity. -/
lemma startOfYearBalance_rate_identity (currentBalance : ℚ) (monthsElapsed : ℕ)
    (rate : ℚ) (act : YTDActuals) (hrate : 0 < rate) :
    startOfYearBalance currentBalance monthsElapsed rate act * (rate / 12)
        + (actualMonthlyEmployee act monthsElapsed + actualMonthlyEmployer act monthsElapsed)
      = (currentBalance * (rate / 12)
          + (actualMonthlyEmployee act monthsElapsed
            + actualMonthlyEmployer act monthsElapsed))
        / (1 + rate / 12) ^ monthsElapsed := by
  have hg : (0:ℚ) < 1 + rate / 12 := by linarith
  have hgE : ((1 + rate / 12) ^ monthsElapsed : ℚ) ≠ 0 := pow_ne_zero _ (ne_of_gt hg)
  have hmr : (rate / 12 : ℚ) ≠ 0 := by positivity
  unfold startOfYearBalance
  field_simp
  ring

/-- The raw monthly balance is non-decreasing in the month index for a
positive return rate, at least one elapsed month, and non-negative
balance, contributions and actuals. -/
lemma monthlyBalanceRaw_step (currentBalance ae aer : ℚ) (monthsElapsed : ℕ)
    (rate : ℚ) (act : YTDActuals) (i : ℕ) (hrate : 0 < rate) (hE : 1 ≤ monthsElapsed)
    (hB : 0 ≤ currentBalance) (hae : 0 ≤ ae) (haer : 0 ≤ aer)
    (he : 0 ≤ act.employeeContributed) (hm : 0 ≤ act.employerMatched) :
    monthlyBalanceRaw currentBalance ae aer monthsElapsed rate act i ≤
      monthlyBalanceRaw currentBalance ae aer monthsElapsed rate act (i + 1) := by
  have hmr : (0:ℚ) < rate / 12 := by positivity
  have hg : (0:ℚ) < 1 + rate / 12 := by linarith
  have ha : 0 ≤ actualMonthlyEmployee act monthsElapsed
      + actualMonthlyEmployer act monthsElapsed := by
    have h1 : 0 ≤ actualMonthlyEmployee act monthsElapsed :=
      div_nonneg he (by positivity)
    have h2 : 0 ≤ actualMonthlyEmployer act monthsElapsed :=
      div_nonneg hm (by positivity)
    linarith
  have hf : 0 ≤ ae / 12 + aer / 12 := by positivity
  by_cases h1 : i + 1 ≤ monthsElapsed
  · rw [monthlyBalanceRaw_hist currentBalance ae aer monthsElapsed rate act i (by omega),
      monthlyBalanceRaw_hist currentBalance ae aer monthsElapsed rate act (i + 1) h1]
    have hstep := annuity_step (startOfYearBalance currentBalance monthsElapsed rate act)
      (actualMonthlyEmployee act monthsElapsed + actualMonthlyEmployer act monthsElapsed)
      (rate / 12) (ne_of_gt hmr) i
    have hkey : 0 ≤ startOfYearBalance currentBalance monthsElapsed rate act * (rate / 12)
        + (actualMonthlyEmployee act monthsElapsed
          + actualMonthlyEmployer act monthsElapsed) := by
      rw [startOfYearBalance_rate_identity currentBalance monthsElapsed rate act hrate]
      exact div_nonneg (by nlinarith) (by positivity)
    nlinarith [pow_nonneg (le_of_lt hg) i]
  · rcases Nat.lt_or_ge monthsElapsed i with h2 | h2
    · rw [monthlyBalanceRaw_future currentBalance ae aer monthsElapsed rate act i h2,
        monthlyBalanceRaw_future currentBalance ae aer monthsElapsed rate act (i + 1)
          (by omega)]
      have hsub : i + 1 - monthsElapsed = (i - monthsElapsed) + 1 := by omega
      rw [hsub]
      have hstep := annuity_step currentBalance (ae / 12 + aer / 12) (rate / 12)
        (ne_of_gt hmr) (i - monthsElapsed)
      nlinarith [pow_nonneg (le_of_lt hg) (i - monthsElapsed),
        mul_nonneg hB (le_of_lt hmr)]
    · have hiE : i = monthsElapsed := by omega
      subst hiE
      rw [monthlyBalanceRaw_at_elapsed currentBalance ae aer i rate act hrate,
        monthlyBalanceRaw_future currentBalance ae aer i rate act (i + 1) (by omega)]
      have hsub : i + 1 - i = 1 := by omega
      rw [hsub, pow_one]
      have hone : ((1 + rate / 12) - 1) / (rate / 12) = 1 := by
        field_simp
      rw [hone]
      nlinarith [mul_nonneg hB (le_of_lt hmr)]

/-- The yearly loop balance stays non-negative for non-negative inputs. -/
lemma yearlyBalanceRaw_nonneg (currentBalance annualContribution rate : ℚ)
    (hB : 0 ≤ currentBalance) (hc : 0 ≤ annualContribution) (hr : 0 ≤ rate) (y : ℕ) :
    0 ≤ yearlyBalanceRaw currentBalance annualContribution rate y := by
  induction y with
  | zero => exact hB
  | succ y ih =>
    show 0 ≤ yearlyBalanceRaw currentBalance annualContribution rate y * (1 + rate)
      + annualContribution
    nlinarith

/-- The yearly loop balance is non-decreasing for non-negative inputs. -/
lemma yearlyBalanceRaw_step (currentBalance annualContribution rate : ℚ)
    (hB : 0 ≤ currentBalance) (hc : 0 ≤ annualContribution) (hr : 0 ≤ rate) (y : ℕ) :
    yearlyBalanceRaw currentBalance annualContribution rate y ≤
      yearlyBalanceRaw currentBalance annualContribution rate (y + 1) := by
  have hnn := yearlyBalanceRaw_nonneg currentBalance annualContribution rate hB hc hr y
  show yearlyBalanceRaw currentBalance annualContribution rate y ≤
    yearlyBalanceRaw currentBalance annualContribution rate y * (1 + rate)
      + annualContribution
  nlinarith

/-- Every yearly point's stored balance is the rounded loop balance (the
year-0 branch stores the rounded starting balance, which is the loop
balance at 0). -/
lemma yearlyPoint_balance (currentBalance : ℚ) (currentAge : ℤ) (ae aer rate : ℚ)
    (y : ℕ) :
    (yearlyPoint currentBalance currentAge ae aer rate y).balance =
      mathRound (yearlyBalanceRaw currentBalance (ae + aer) rate y) := by
  cases y with
  | zero => rfl
  | succ y => rfl

/-- C5 (amended): for a *positive* annual return rate, at least one
elapsed month (the source divides by both, so the claim's boundary cases
`rate = 0` and `monthsElapsed = 0` produce `NaN` instead — see the
counterexample), and non-negative balance, contributions and actuals,
consecutive monthly-trajectory balances are non-decreasing; and for any
non-negative return rate, balance and contributions, consecutive
yearly-trajectory balances are non-decreasing. -/
theorem monotonic_growth :
    (∀ (currentBalance ae aer : ℚ) (monthsElapsed : ℕ) (rate : ℚ)
        (monthsToProject : ℕ) (act : YTDActuals) (i : ℕ) (p q : MonthlyPoint),
      0 < rate → 1 ≤ monthsElapsed → 0 ≤ currentBalance → 0 ≤ ae → 0 ≤ aer →
      0 ≤ act.employeeContributed → 0 ≤ act.employerMatched →
      (generateMonthlyProjection currentBalance ae aer monthsElapsed rate
          monthsToProject act).get? i = some p →
      (generateMonthlyProjection currentBalance ae aer monthsElapsed rate
          monthsToProject act).get? (i + 1) = some q →
      p.balance ≤ q.balance) ∧
    (∀ (currentBalance : ℚ) (currentAge retirementAge : ℤ) (ae aer rate : ℚ)
        (i : ℕ) (p q : YearlyPoint),
      0 ≤ rate → 0 ≤ currentBalance → 0 ≤ ae → 0 ≤ aer →
      (generateYearlyProjection currentBalance currentAge retirementAge ae aer
          rate).get? i = some p →
      (generateYearlyProjection currentBalance currentAge retirementAge ae aer
          rate).get? (i + 1) = some q →
      p.balance ≤ q.balance) := by
  constructor
  · intro currentBalance ae aer monthsElapsed rate monthsToProject act i p q
      hrate hE hB hae haer he hm hp hq
    unfold generateMonthlyProjection at hp hq
    rw [List.get?_map] at hp hq
    obtain ⟨a, ha, hap⟩ := Option.map_eq_some'.1 hp
    obtain ⟨b, hb, hbq⟩ := Option.map_eq_some'.1 hq
    have hia : i < monthsToProject + 1 := by
      by_contra hcon
      rw [List.get?_len_le (by simpa [List.length_range] using Nat.le_of_not_lt hcon)]
        at ha
      exact Option.noConfusion ha
    have hib : i + 1 < monthsToProject + 1 := by
      by_contra hcon
      rw [List.get?_len_le (by simpa [List.length_range] using Nat.le_of_not_lt hcon)]
        at hb
      exact Option.noConfusion hb
    rw [List.get?_range hia] at ha
    rw [List.get?_range hib] at hb
    cases ha
    cases hb
    subst hap
    subst hbq
    show mathRound (monthlyBalanceRaw currentBalance ae aer monthsElapsed rate act i) ≤
      mathRound (monthlyBalanceRaw currentBalance ae aer monthsElapsed rate act (i + 1))
    exact mathRound_mono (monthlyBalanceRaw_step currentBalance ae aer monthsElapsed
      rate act i hrate hE hB hae haer he hm)
  · intro currentBalance currentAge retirementAge ae aer rate i p q hr hB hae haer hp hq
    unfold generateYearlyProjection at hp hq
    rw [List.get?_map] at hp hq
    obtain ⟨a, ha, hap⟩ := Option.map_eq_some'.1 hp
    obtain ⟨b, hb, hbq⟩ := Option.map_eq_some'.1 hq
    have hia : i < (retirementAge - currentAge).toNat + 1 := by
      by_contra hcon
      rw [List.get?_len_le (by simpa [List.length_range] using Nat.le_of_not_lt hcon)]
        at ha
      exact Option.noConfusion ha
    have hib : i + 1 < (retirementAge - currentAge).toNat + 1 := by
      by_contra hcon
      rw [List.get?_len_le (by simpa [List.length_range] using Nat.le_of_not_lt hcon)]
        at hb
      exact Option.noConfusion hb
    rw [List.get?_range hia] at ha
    rw [List.get?_range hib] at hb
    cases ha
    cases hb
    subst hap
    subst hbq
    rw [yearlyPoint_balance, yearlyPoint_balance]
    exact mathRound_mono (yearlyBalanceRaw_step currentBalance (ae + aer) rate hB
      (by linarith) hr i)

/-- C5 witness: a concrete monthly pair (1200 % annual rate, one elapsed
month) and a concrete yearly pair, with every hypothesis discharged. -/
theorem monotonic_growth_witness :
    (monthlyPoint 0 12 0 1 12 ⟨1, 12, 0, 12⟩ 0).balance ≤
        (monthlyPoint 0 12 0 1 12 ⟨1, 12, 0, 12⟩ 1).balance ∧
      (yearlyPoint 0 30 1 1 0 0).balance ≤ (yearlyPoint 0 30 1 1 0 1).balance := by
  constructor
  · exact monotonic_growth.1 0 12 0 1 12 2 ⟨1, 12, 0, 12⟩ 0 _ _ (by norm_num)
      (by norm_num) (by norm_num) (by norm_num) (by norm_num) (by norm_num)
      (by norm_num) rfl rfl
  · exact monotonic_growth.2 0 30 31 1 1 0 0 _ _ (by norm_num) (by norm_num)
      (by norm_num) (by norm_num) rfl rfl

/-! ## Downsampler (`downsampleYearlyData`) -/

/-- `downsampleYearlyData` from `graphCalculations.js`.  For
`maxPoints ≥ 1` the `step` below is exactly `Math.ceil(length /
maxPoints)` and the `range'` list is exactly the indices visited by the
sampling loop `for (i = step; i < length - 1; i += step)`.  For
`maxPoints = 0` the source computes `step = Math.ceil(length / 0) =
Infinity` and the loop body never runs; the natural-number division by
zero below yields an empty `range'` as well, so the model agrees: the
output is `[first, last]`. -/
def downsampleYearlyData {α : Type} (yearlyData : List α) (maxPoints : ℕ) : List α :=
  if yearlyData.length ≤ maxPoints then yearlyData
  else
    let step := (yearlyData.length + maxPoints - 1) / maxPoints
    yearlyData.head?.toList
      ++ (List.range' step ((yearlyData.length - 2) / step) step).filterMap
          yearlyData.get?
      ++ yearlyData.getLast?.toList

/-- Singleton-index `filterMap` picks up the head. -/
lemma head?_toList_eq_filterMap {α : Type} (l : List α) :
    l.head?.toList = [0].filterMap l.get? := by
  cases l <;> rfl

/-- `filterMap` over a single element is that element's image. -/
lemma filterMap_singleton_toList {α β : Type} (f : α → Option β) (a : α) :
    [a].filterMap f = (f a).toList := by
  cases h : f a <;> simp [List.filterMap_cons, h]

/-- Singleton-index `filterMap` picks up the last element. -/
lemma getLast?_toList_eq_filterMap {α : Type} (l : List α) :
    l.getLast?.toList = [l.length - 1].filterMap l.get? := by
  rw [filterMap_singleton_toList, List.getLast?_eq_get? l]

/-- Dropping the head of the list shifts `get?` indices that are all
positive. -/
lemma filterMap_get?_cons_shift {α : Type} (a : α) (t : List α) (is : List ℕ)
    (h : ∀ j ∈ is, 1 ≤ j) :
    is.filterMap (a :: t).get? = (is.map Nat.pred).filterMap t.get? := by
  induction is with
  | nil => rfl
  | cons j js ih =>
    have hj : 1 ≤ j := h j (List.mem_cons_self j js)
    obtain ⟨j', rfl⟩ : ∃ j', j = j' + 1 := ⟨j - 1, by omega⟩
    simp only [List.map_cons, Nat.pred_succ, List.filterMap_cons, List.get?_cons_succ,
      ih (fun x hx => h x (List.mem_cons_of_mem _ hx))]

/-- `Nat.pred` preserves strict sortedness of a list of positive indices. -/
lemma pairwise_lt_map_pred {is : List ℕ} (h1 : ∀ j ∈ is, 1 ≤ j)
    (h : is.Pairwise (· < ·)) : (is.map Nat.pred).Pairwise (· < ·) := by
  induction is with
  | nil => simp
  | cons j js ih =>
    rw [List.pairwise_cons] at h
    rw [List.map_cons, List.pairwise_cons]
    refine ⟨?_, ih (fun x hx => h1 x (List.mem_cons_of_mem _ hx)) h.2⟩
    intro b hb
    obtain ⟨x, hx, rfl⟩ := List.mem_map.1 hb
    have hx1 := h.1 x hx
    have hx2 := h1 x (List.mem_cons_of_mem _ hx)
    have hj := h1 j (List.mem_cons_self j js)
    simp only [Nat.pred_eq_sub_one]
    omega

/-- Selecting elements of `l` at a strictly increasing list of indices
yields a sublist of `l`. -/
lemma filterMap_get?_sublist {α : Type} (l : List α) (is : List ℕ)
    (h : is.Pairwise (· < ·)) : (is.filterMap l.get?).Sublist l := by
  induction l generalizing is with
  | nil =>
    have hnil : is.filterMap ([] : List α).get? = [] := by
      clear h
      induction is with
      | nil => rfl
      | cons j js ih => simpa [List.filterMap_cons] using ih
    rw [hnil]
  | cons a t iht =>
    cases is with
    | nil => exact List.nil_sublist _
    | cons i is' =>
      rw [List.pairwise_cons] at h
      obtain ⟨h1, h2⟩ := h
      cases i with
      | zero =>
        have hpos : ∀ j ∈ is', 1 ≤ j := fun j hj => h1 j hj
        show (a :: is'.filterMap (a :: t).get?).Sublist (a :: t)
        rw [filterMap_get?_cons_shift a t is' hpos]
        exact List.Sublist.cons₂ a (iht _ (pairwise_lt_map_pred hpos h2))
      | succ m =>
        have hall : ∀ j ∈ (m + 1) :: is', 1 ≤ j := by
          intro j hj
          rcases List.mem_cons.1 hj with rfl | hj'
          · omega
          · have := h1 j hj'
            omega
        rw [filterMap_get?_cons_shift a t ((m + 1) :: is') hall]
        exact List.Sublist.cons a
          (iht _ (pairwise_lt_map_pred hall (List.pairwise_cons.2 ⟨h1, h2⟩)))

/-- In the sampling branch, the output is the `filterMap` of `l.get?`
over the index list `0 :: sampled ++ [length - 1]`. -/
lemma downsample_eq_filterMap {α : Type} (l : List α) (maxPoints : ℕ)
    (h : maxPoints < l.length) :
    downsampleYearlyData l maxPoints =
      ((0 : ℕ) :: (List.range' ((l.length + maxPoints - 1) / maxPoints)
          ((l.length - 2) / ((l.length + maxPoints - 1) / maxPoints))
          ((l.length + maxPoints - 1) / maxPoints) ++ [l.length - 1])).filterMap
        l.get? := by
  unfold downsampleYearlyData
  rw [if_neg (by omega)]
  simp only [head?_toList_eq_filterMap, getLast?_toList_eq_filterMap,
    ← List.filterMap_append]
  rfl

/-- The index list used by the sampling branch is strictly increasing
when `maxPoints ≥ 1`. -/
lemma downsample_indices_pairwise (n maxPoints : ℕ) (hk : 1 ≤ maxPoints)
    (h : maxPoints < n) :
    ((0 : ℕ) :: (List.range' ((n + maxPoints - 1) / maxPoints)
        ((n - 2) / ((n + maxPoints - 1) / maxPoints))
        ((n + maxPoints - 1) / maxPoints) ++ [n - 1])).Pairwise (· < ·) := by
  have hn2 : 2 ≤ n := by omega
  have hstep : 1 ≤ (n + maxPoints - 1) / maxPoints := by
    rw [Nat.one_le_div_iff (by omega)]
    omega
  rw [List.pairwise_cons]
  constructor
  · intro j hj
    rcases List.mem_append.1 hj with hj' | hj'
    · obtain ⟨i, _, rfl⟩ := List.mem_range'.1 hj'
      omega
    · simp only [List.mem_singleton] at hj'
      omega
  · rw [List.pairwise_append]
    refine ⟨List.pairwise_lt_range' _ _ _ (by omega), List.pairwise_singleton _ _, ?_⟩
    intro x hx y hy
    obtain ⟨i, hi, rfl⟩ := List.mem_range'.1 hx
    simp only [List.mem_singleton] at hy
    subst hy
    have hmul : ((n - 2) / ((n + maxPoints - 1) / maxPoints))
        * ((n + maxPoints - 1) / maxPoints) ≤ n - 2 :=
      Nat.div_mul_le_self _ _
    have hle : (i + 1) * ((n + maxPoints - 1) / maxPoints) ≤
        ((n - 2) / ((n + maxPoints - 1) / maxPoints))
          * ((n + maxPoints - 1) / maxPoints) :=
      Nat.mul_le_mul_right _ (by omega)
    have hx2 : (n + maxPoints - 1) / maxPoints
        + (n + maxPoints - 1) / maxPoints * i = (i + 1) * ((n + maxPoints - 1) / maxPoints) := by
      ring
    omega

/-- C8 (counterexample): with `maxPoints = 0` (allowed by the claim's
"every maxPoints") the source pushes the first and last point of a
singleton list separately, returning a two-element list that is not a
subsequence of the one-element input. -/
theorem downsample_not_subsequence_at_zero_budget :
    downsampleYearlyData ([0] : List ℕ) 0 = [0, 0] ∧
      ¬ (downsampleYearlyData ([0] : List ℕ) 0).Sublist [0] := by
  refine ⟨rfl, ?_⟩
  intro h
  have hlen := h.length_le
  simp [downsampleYearlyData] at hlen

/-- C8 (amended): restricted to `maxPoints ≥ 1` where the claim needs it:
(i) identity whenever `length ≤ maxPoints` (any budget); (ii) the first
and last output elements always equal the input's first and last;
(iii) for `maxPoints ≥ 1` the output is a subsequence (in ascending index
order) of the input; (iv) in the sampling branch the output is exactly
the first point, every `step`-th point strictly between first and last
with `step = ⌈length / maxPoints⌉`, and the last point. -/
theorem downsampleYearlyData_spec :
    (∀ (α : Type) (l : List α) (maxPoints : ℕ), l.length ≤ maxPoints →
      downsampleYearlyData l maxPoints = l) ∧
    (∀ (α : Type) (l : List α) (maxPoints : ℕ), l ≠ [] →
      (downsampleYearlyData l maxPoints).head? = l.head? ∧
        (downsampleYearlyData l maxPoints).getLast? = l.getLast?) ∧
    (∀ (α : Type) (l : List α) (maxPoints : ℕ), 1 ≤ maxPoints →
      (downsampleYearlyData l maxPoints).Sublist l) ∧
    (∀ (α : Type) (l : List α) (maxPoints : ℕ), maxPoints < l.length →
      downsampleYearlyData l maxPoints =
        l.head?.toList
          ++ (List.range' ((l.length + maxPoints - 1) / maxPoints)
              ((l.length - 2) / ((l.length + maxPoints - 1) / maxPoints))
              ((l.length + maxPoints - 1) / maxPoints)).filterMap l.get?
          ++ l.getLast?.toList) := by
  refine ⟨?_, ?_, ?_, ?_⟩
  · intro α l maxPoints h
    unfold downsampleYearlyData
    rw [if_pos h]
  · intro α l maxPoints h
    constructor
    · unfold downsampleYearlyData
      split
      · rfl
      · obtain ⟨a, t, rfl⟩ := List.exists_cons_of_ne_nil h
        rfl
    · unfold downsampleYearlyData
      split
      · rfl
      · have hlast : l.getLast? = some (l.getLast h) :=
          List.getLast?_eq_getLast_of_ne_nil h
        rw [List.getLast?_append_of_ne_nil]
        · rw [hlast]
          rfl
        · rw [hlast]
          simp
  · intro α l maxPoints hk
    rcases le_or_lt l.length maxPoints with h | h
    · unfold downsampleYearlyData
      rw [if_pos h]
    · rw [downsample_eq_filterMap l maxPoints h]
      exact filterMap_get?_sublist l _ (downsample_indices_pairwise l.length maxPoints hk h)
  · intro α l maxPoints h
    unfold downsampleYearlyData
    rw [if_neg (by omega)]

/-- C8 witness: identity on a 3-element list with budget 5; endpoints,
subsequence and step characterization on a 5-element list with budget 2
(step 3, output `[10, 13, 14]`). -/
theorem downsampleYearlyData_spec_witness :
    downsampleYearlyData ([10, 11, 12] : List ℕ) 5 = [10, 11, 12] ∧
    (downsampleYearlyData ([10, 11, 12, 13, 14] : List ℕ) 2).head? =
      ([10, 11, 12, 13, 14] : List ℕ).head? ∧
    (downsampleYearlyData ([10, 11, 12, 13, 14] : List ℕ) 2).getLast? =
      ([10, 11, 12, 13, 14] : List ℕ).getLast? ∧
    (downsampleYearlyData ([10, 11, 12, 13, 14] : List ℕ) 2).Sublist
      [10, 11, 12, 13, 14] ∧
    downsampleYearlyData ([10, 11, 12, 13, 14] : List ℕ) 2 =
      ([10, 11, 12, 13, 14] : List ℕ).head?.toList
        ++ (List.range' 3 1 3).filterMap ([10, 11, 12, 13, 14] : List ℕ).get?
        ++ ([10, 11, 12, 13, 14] : List ℕ).getLast?.toList := by
  refine ⟨downsampleYearlyData_spec.1 ℕ _ 5 (by norm_num),
    (downsampleYearlyData_spec.2.1 ℕ [10, 11, 12, 13, 14] 2 (by simp)).1,
    (downsampleYearlyData_spec.2.1 ℕ [10, 11, 12, 13, 14] 2 (by simp)).2,
    downsampleYearlyData_spec.2.2.1 ℕ [10, 11, 12, 13, 14] 2 (by norm_num),
    downsampleYearlyData_spec.2.2.2 ℕ [10, 11, 12, 13, 14] 2 (by norm_num)⟩
